import Mathlib

/-!
Verification of the tframe repository's spec against its code:
a shallow embedding in Lean 4 of the parts of the source the claims are
about, with one theorem per claim.

Sources embedded:
- src/utils/display/table.py (class Table)
- src/utils/misc.py (convert_to_one_hot)
- src/models/sl/predictor.py (class Predictor)
-/

namespace TFrame

/-! ## src/utils/display/table.py -/

/-- The `Table` object: `__init__(self, *widths, tab=4, margin=2)` stores the
column widths, the tab size and the margin (`assert len(widths) > 0` is a
precondition checked by the constructor, carried here as hypotheses where a
theorem needs it). -/
structure Table where
  widths : List Nat
  tab : Nat := 4
  margin : Nat := 2
deriving Repr, DecidableEq

/-- `self.columns = len(widths)`. -/
def Table.columns (t : Table) : Nat := t.widths.length

/-- Property `tab`: `return ' ' * self._tab`. -/
def Table.tabStr (t : Table) : String := String.mk (List.replicate t.tab ' ')

/-- Property `hline_width`:
`sum(self._widths) + self._tab * (self.columns - 1) + 2 * self._margin`. -/
def Table.hline_width (t : Table) : Nat :=
  t.widths.sum + t.tab * (t.columns - 1) + 2 * t.margin

/-- One cell of `_get_line`:
`(('{:>' if i > 0 else '{:<') + str(w) + '}').format(c[ :w])` —
the cell string is truncated to the column width (`c[:w]`), then padded with
spaces to exactly the width: on the left (right-aligned) for every column but
the first, on the right (left-aligned) for the first column. -/
def fmtCell (i : Nat) (c : String) (w : Nat) : String :=
  if i > 0 then String.mk (List.replicate (w - (c.take w).length) ' ') ++ c.take w
  else c.take w ++ String.mk (List.replicate (w - (c.take w).length) ' ')

/-- `Table._get_line(self, cells)`:
`return self.tab.join([...fmt(c[:w])... for i, (c, w) in enumerate(zip(cells, self._widths))])`. -/
def Table.get_line (t : Table) (cells : List String) : String :=
  String.intercalate t.tabStr
    (((cells.zip t.widths).enum).map fun p => fmtCell p.1 p.2.1 p.2.2)

theorem intercalate_go_length (s : String) (l : List String) (acc : String) :
    (String.intercalate.go acc s l).length
      = acc.length + ((l.map String.length).sum + s.length * l.length) := by
  induction l generalizing acc with
  | nil => simp [String.intercalate.go]
  | cons a as ih =>
      simp only [String.intercalate.go, ih, String.length_append, List.map_cons,
        List.sum_cons, List.length_cons]
      ring

theorem length_intercalate (s : String) (l : List String) :
    (String.intercalate s l).length
      = (l.map String.length).sum + s.length * (l.length - 1) := by
  cases l with
  | nil => simp [String.intercalate]
  | cons a as => simp [String.intercalate, intercalate_go_length]; ring

theorem length_fmtCell (i : Nat) (c : String) (w : Nat) :
    (fmtCell i c w).length = max w (min w c.length) := by
  have htake : (c.take w).length = min w c.length := by
    rw [String.take_eq, String.length_mk, String.length, List.length_take]
  by_cases h : i > 0
  · simp only [fmtCell, if_pos h, String.length_append, String.length_mk,
      List.length_replicate, htake]
    omega
  · simp only [fmtCell, if_neg h, String.length_append, String.length_mk,
      List.length_replicate, htake]
    omega

theorem fmtCell_width_le (i : Nat) (c : String) (w : Nat) :
    (fmtCell i c w).length = w := by
  rw [length_fmtCell]; omega

/-- C10: for every `Table` and every row of cells (one per column), the line
produced by `Table._get_line` truncates each cell to its column width, aligns
and pads it to exactly that width, and joins columns with the tab string, so
the content between the margins has length exactly
`hline_width - 2 * margin` and in particular never exceeds it. -/
theorem table_get_line_fits (t : Table) (cells : List String)
    (h : cells.length = t.columns) :
    (t.get_line cells).length + 2 * t.margin = t.hline_width ∧
    (t.get_line cells).length ≤ t.hline_width - 2 * t.margin := by
  have hmap : ((((cells.zip t.widths).enum).map
        fun p => fmtCell p.1 p.2.1 p.2.2).map String.length) = t.widths := by
    rw [List.map_map]
    have h1 : (String.length ∘ fun p : Nat × String × Nat => fmtCell p.1 p.2.1 p.2.2)
        = fun p : Nat × String × Nat => p.2.2 := by
      funext p; exact fmtCell_width_le p.1 p.2.1 p.2.2
    have h2 : (fun p : Nat × String × Nat => p.2.2)
        = (fun a : String × Nat => a.2) ∘ Prod.snd := rfl
    rw [h1, h2, ← List.map_map, List.enum_map_snd, List.map_snd_zip]
    rw [h]; exact Nat.le_of_eq rfl
  have hlen : (t.get_line cells).length
      = t.widths.sum + t.tab * (t.columns - 1) := by
    rw [Table.get_line, length_intercalate, hmap, List.length_map,
      List.enum_length, List.length_zip, h]
    simp [Table.tabStr, Table.columns]
  constructor
  · rw [hlen, Table.hline_width]
  · rw [hlen, Table.hline_width]; omega

/-- Witness for C10 at a concrete table and row. -/
theorem table_get_line_fits_witness :
    (["ab", "cdef"] : List String).length = (Table.mk [5, 3] 4 2).columns ∧
    ((Table.mk [5, 3] 4 2).get_line ["ab", "cdef"]).length + 2 * 2
        = (Table.mk [5, 3] 4 2).hline_width ∧
    ((Table.mk [5, 3] 4 2).get_line ["ab", "cdef"]).length
        ≤ (Table.mk [5, 3] 4 2).hline_width - 2 * 2 :=
  ⟨by decide, table_get_line_fits (Table.mk [5, 3] 4 2) ["ab", "cdef"] (by decide)⟩

/-! ## src/utils/misc.py -/

/-- A NumPy array as `convert_to_one_hot` uses it: a shape and the row-major
flat data. The function only reads the number of dimensions, the leading axis
length and (for 1-D inputs) the integer entries, so integer data suffices. -/
structure NDArray where
  shape : List Nat
  data : List Int
deriving Repr, DecidableEq

theorem except_bind_ok {e a b : Type} (x : a) (f : a → Except e b) :
    (Except.ok x >>= f) = f x := rfl

theorem except_bind_error {e a b : Type} (err : e) (f : a → Except e b) :
    ((Except.error err : Except e a) >>= f) = Except.error err := rfl

theorem except_pure {e a : Type} (x : a) : (pure x : Except e a) = Except.ok x := rfl

/-- NumPy integer indexing into an axis of length `classes`: a nonnegative
index must be below the length, a negative index `l` means `classes + l`;
anything else raises `IndexError`. -/
def npIndex (classes : Nat) (l : Int) : Except String Nat :=
  if 0 ≤ l ∧ l < (classes : Int) then .ok l.toNat
  else if -(classes : Int) ≤ l ∧ l < 0 then .ok (l + classes).toNat
  else .error "IndexError: index out of bounds"

/-- The one-hot rows written by `onehot[range(sample_num), labels] = 1` into
`np.zeros(shape=[sample_num, classes])`, flattened row-major: row `i` is 1 at
column `npIndex classes labels[i]` and 0 elsewhere; fails with the
`IndexError` NumPy raises when some label is out of range. -/
def oneHotData (classes : Nat) (labels : List Int) : Except String (List Int) := do
  let cols ← labels.mapM (npIndex classes)
  pure (cols.flatMap fun c => (List.range classes).map fun j => if j = c then (1 : Int) else 0)

/-- The function `convert_to_one_hot(labels, classes)` of src/utils/misc.py:
`labels = np.array(labels)`; if `len(labels.shape) < 2`, a fresh
`[sample_num, classes]` one-hot array is built with `sample_num =
labels.shape[0]` (an `IndexError` on a 0-d array); otherwise `onehot =
labels`. Then `if len(onehot.shape) != 2` a `ValueError` is raised, else
`onehot` is returned. -/
def convert_to_one_hot (labels : NDArray) (classes : Nat) :
    Except String NDArray := do
  let onehot : NDArray ←
    if labels.shape.length < 2 then
      match labels.shape with
      | [] => Except.error "IndexError: tuple index out of range"
      | sample_num :: _ => do
          let d ← oneHotData classes labels.data
          pure ⟨[sample_num, classes], d⟩
    else pure labels
  if onehot.shape.length ≠ 2 then
    Except.error ("!! Input labels has an illegal dimension "
      ++ toString labels.shape.length)
  else pure onehot

theorem mapM_npIndex_ok (classes : Nat) (xs : List Int)
    (h : ∀ x ∈ xs, 0 ≤ x ∧ x < (classes : Int)) :
    xs.mapM (npIndex classes) = Except.ok (xs.map Int.toNat) := by
  induction xs with
  | nil => rfl
  | cons x xs ih =>
      have hx := h x (List.mem_cons_self x xs)
      have hxs := ih fun y hy => h y (List.mem_cons_of_mem x hy)
      rw [List.mapM_cons, hxs]
      have hnp : npIndex classes x = Except.ok x.toNat := by
        simp [npIndex, hx.1, hx.2]
      rw [hnp]
      rfl

theorem getElem_bind_uniform (ys : List Nat) (classes : Nat) (g : Nat → List Int)
    (hg : ∀ c, (g c).length = classes) (i j : Nat) (hi : i < ys.length)
    (hj : j < classes) :
    (ys.flatMap g)[i * classes + j]? = (g (ys.get ⟨i, hi⟩))[j]? := by
  induction ys generalizing i with
  | nil => exact absurd hi (Nat.not_lt_zero i)
  | cons y ys ih =>
      rw [List.flatMap_cons]
      cases i with
      | zero =>
          have hlt : 0 * classes + j < (g y).length := by rw [hg]; omega
          rw [List.getElem?_append_left hlt]
          simp
      | succ i =>
          have hle : (g y).length ≤ (i + 1) * classes + j := by
            rw [hg]; calc classes ≤ (i + 1) * classes := Nat.le_mul_of_pos_left _ (Nat.succ_pos i)
              _ ≤ (i + 1) * classes + j := Nat.le_add_right _ _
          rw [List.getElem?_append_right hle, hg]
          have harith : (i + 1) * classes + j - classes = i * classes + j := by
            have : (i + 1) * classes = i * classes + classes := by ring
            omega
          rw [harith]
          exact ih i (Nat.lt_of_succ_lt_succ hi)

theorem getElem_oneHotRow (classes c j : Nat) (hj : j < classes) :
    ((List.range classes).map fun k => if k = c then (1 : Int) else 0)[j]?
      = some (if j = c then (1 : Int) else 0) := by
  rw [List.getElem?_map, List.getElem?_range hj]
  rfl

theorem length_flatMap_uniform (ys : List Nat) (classes : Nat) (g : Nat → List Int)
    (hg : ∀ c, (g c).length = classes) :
    (ys.flatMap g).length = ys.length * classes := by
  induction ys with
  | nil => simp
  | cons y ys ih =>
      rw [List.flatMap_cons, List.length_append, hg, ih, List.length_cons]
      ring

/-- C9: `convert_to_one_hot` on a 1-D array of integer labels each in
`[0, classes)` returns a 2-D array of shape `[len(labels), classes]` whose
row `i` is 1 at column `labels[i]` and 0 elsewhere; a 2-D input is returned
unchanged; an input with 3 or more dimensions raises `ValueError`. -/
theorem convert_to_one_hot_spec (classes : Nat) (xs : List Int) (a : NDArray) :
    ((∀ x ∈ xs, 0 ≤ x ∧ x < (classes : Int)) →
      ∃ d : List Int,
        convert_to_one_hot ⟨[xs.length], xs⟩ classes
            = Except.ok ⟨[xs.length, classes], d⟩ ∧
        d.length = xs.length * classes ∧
        ∀ (i j : Nat) (hi : i < xs.length) (_hj : j < classes),
          d[i * classes + j]? = some (if (j : Int) = xs.get ⟨i, hi⟩ then 1 else 0)) ∧
    (a.shape.length = 2 → convert_to_one_hot a classes = Except.ok a) ∧
    (3 ≤ a.shape.length →
      convert_to_one_hot a classes
        = Except.error ("!! Input labels has an illegal dimension "
            ++ toString a.shape.length)) := by
  refine ⟨fun hin => ?_, fun h2 => ?_, fun h3 => ?_⟩
  · have hg : ∀ c : Nat,
        ((List.range classes).map fun k => if k = c then (1 : Int) else 0).length
          = classes := by
      intro c; simp
    refine ⟨(xs.map Int.toNat).flatMap
      fun c => (List.range classes).map fun k => if k = c then (1 : Int) else 0,
      ?_, ?_, ?_⟩
    · have hone : oneHotData classes xs = Except.ok ((xs.map Int.toNat).flatMap
          fun c => (List.range classes).map fun k => if k = c then (1 : Int) else 0) := by
        simp only [oneHotData]
        rw [mapM_npIndex_ok classes xs hin]
        rfl
      simp [convert_to_one_hot, hone, except_bind_ok, except_pure]
    · rw [length_flatMap_uniform _ classes _ hg, List.length_map]
    · intro i j hi hj
      have hi' : i < (xs.map Int.toNat).length := by simpa using hi
      rw [getElem_bind_uniform (xs.map Int.toNat) classes _ hg i j hi' hj]
      rw [getElem_oneHotRow classes _ j hj]
      have h0 := (hin _ (List.get_mem xs i hi)).1
      have hget : (xs.map Int.toNat).get ⟨i, hi'⟩ = (xs.get ⟨i, hi⟩).toNat := by
        simp
      rw [hget]
      by_cases hc : (j : Int) = xs.get ⟨i, hi⟩
      · rw [if_pos (by omega), if_pos hc]
      · rw [if_neg (by omega), if_neg hc]
  · have hn : ¬ a.shape.length < 2 := by omega
    simp [convert_to_one_hot, hn, h2, except_bind_ok, except_pure]
  · have hn : ¬ a.shape.length < 2 := by omega
    have hne : a.shape.length ≠ 2 := by omega
    simp [convert_to_one_hot, hn, hne, except_bind_ok, except_pure]

/-- Witness for C9 at `labels = [0, 2]`, `classes = 3`, and the 2-D array
`[[1, 2], [3, 4]]`. -/
theorem convert_to_one_hot_spec_witness :
    (∃ d : List Int,
        convert_to_one_hot ⟨[2], [0, 2]⟩ 3 = Except.ok ⟨[2, 3], d⟩ ∧
        d.length = 2 * 3 ∧
        ∀ (i j : Nat) (hi : i < ([(0 : Int), 2]).length) (_hj : j < 3),
          d[i * 3 + j]? = some (if (j : Int) = ([(0 : Int), 2]).get ⟨i, hi⟩
            then 1 else 0)) ∧
    convert_to_one_hot ⟨[2, 2], [1, 2, 3, 4]⟩ 3
        = Except.ok ⟨[2, 2], [1, 2, 3, 4]⟩ ∧
    convert_to_one_hot ⟨[2, 2, 2], []⟩ 3
        = Except.error ("!! Input labels has an illegal dimension "
            ++ toString (3 : Nat)) :=
  ⟨(convert_to_one_hot_spec 3 [0, 2] ⟨[2, 2], [1, 2, 3, 4]⟩).1 (by decide),
   (convert_to_one_hot_spec 3 [0, 2] ⟨[2, 2], [1, 2, 3, 4]⟩).2.1 (by decide),
   (convert_to_one_hot_spec 3 [0, 2] ⟨[2, 2, 2], []⟩).2.2 (by decide)⟩

/-! ## src/models/sl/predictor.py — data model -/

/-- Symbolic tensors of the graph the predictor builds. External
collaborators' tensors (the activated output of the base network, the
logits, the regularization loss) enter as `ext`-tagged values; `lossApp` and
`metricApp` record a named loss or metric function applied to its two
arguments; `add` records `+`. -/
inductive Tensor where
  | placeholder (dtype : String) (shape : List (Option Nat)) (name : String)
  | ext (tag : String)
  | lossApp (lossName : String) (target : Tensor) (output : Tensor)
  | metricApp (metricName : String) (valTarget : Tensor) (output : Tensor)
  | add (a b : Tensor)
deriving Repr, DecidableEq

/-- `hub.dtype`, the global configuration's tensor dtype: a fixed value read
from ambient state, opaque to every claim. -/
def hubDtype : String := "hub.dtype"

/-- A `TensorSlot`: a named placeholder for a tensor plugged in during build;
it is activated once a tensor has been plugged. -/
structure TensorSlot where
  name : String
  tensor : Option Tensor := none
deriving Repr, DecidableEq

/-- `TensorSlot.activated`. -/
def TensorSlot.activated (s : TensorSlot) : Bool := s.tensor.isSome

/-- `TensorSlot.plug`. -/
def TensorSlot.plug (s : TensorSlot) (t : Tensor) : TensorSlot :=
  { s with tensor := some t }

/-- The `net_type` argument of `Predictor.__init__`: the class `Feedforward`,
the class `Recurrent`, or any other Python value (`other`). -/
inductive NetTypeArg where
  | feedforward
  | recurrent
  | other (what : String)
deriving Repr, DecidableEq

/-- The attributes `Predictor.__init__` sets up: the master strategy tag, the
model mark, and the two slots created unplugged. -/
structure Predictor where
  master : NetTypeArg
  mark : Option String
  targets : TensorSlot
  val_targets : TensorSlot
deriving Repr, DecidableEq

/-- `Predictor.__init__(self, mark=None, net_type=Feedforward)`: raises
`TypeError('!! Unknown net type')` when `net_type` is neither `Feedforward`
nor `Recurrent`; otherwise stores `net_type` as `self.master`, calls the
parent constructor (external) and creates the unplugged `_targets` and
`_val_targets` slots. -/
def Predictor.init (mark : Option String) (net_type : NetTypeArg) :
    Except String Predictor :=
  if ¬ (net_type = .feedforward ∨ net_type = .recurrent) then
    Except.error "TypeError: !! Unknown net type"
  else
    Except.ok { master := net_type, mark := mark,
                targets := ⟨"targets", none⟩,
                val_targets := ⟨"val_targets", none⟩ }

/-! ## src/models/sl/predictor.py — build -/

/-- What `Predictor._build` consumes from its collaborators: the activated
output tensor produced by `self.master._build` (`none` when the forward pass
has not produced one, so `assert self.outputs.activated` fails), the
output's shape list, `self.logits_tensor` (`none` when no logits were
registered), and `self.regularization_loss` (`none` when absent). -/
structure BuildPre where
  outputs_tensor : Option Tensor
  outputs_shape : List (Option Nat)
  logits_tensor : Option Tensor
  reg_loss : Option Tensor
deriving Repr, DecidableEq

/-- Where `self._val_targets` points after `_build`: still the unplugged slot
from `__init__` (no metric requested), rebound to the very `_targets` slot
(`self._val_targets = self._targets`), or its own separately plugged slot. -/
inductive ValTargetsRef where
  | unset
  | aliasTargets
  | own (slot : TensorSlot)
deriving Repr, DecidableEq

/-- Reading `self._val_targets.tensor` when `_targets` holds
`target_tensor`. -/
def ValTargetsRef.read (vt : ValTargetsRef) (target_tensor : Tensor) :
    Option Tensor :=
  match vt with
  | .unset => none
  | .aliasTargets => some target_tensor
  | .own s => s.tensor

/-- The value `self._metric` holds once plugged:
`self._metric.plug(metric_tensor, as_loss=metric_is_like_loss, symbol=metric_name)`. -/
structure MetricSlotVal where
  tensor : Tensor
  as_loss : Bool
  symbol : String
deriving Repr, DecidableEq

/-- The slots `Predictor._build` fills. -/
structure BuiltModel where
  targets : TensorSlot
  val_targets : ValTargetsRef
  loss : TensorSlot
  metric : Option MetricSlotVal
deriving Repr, DecidableEq

/-- `Predictor._plug_val_target_in(self, val_targets)`: with `val_targets is
None` the attribute `_val_targets` is rebound to the `_targets` slot object
itself; otherwise (`assert isinstance(val_targets, str)`, given by typing) a
fresh placeholder named `val_targets` with the output's shape is created and
plugged into the separate `_val_targets` slot. -/
def Predictor._plug_val_target_in (outputs_shape : List (Option Nat))
    (val_targets : Option String) : ValTargetsRef :=
  match val_targets with
  | none => .aliasTargets
  | some s =>
      .own (TensorSlot.plug ⟨"val_targets", none⟩
        (Tensor.placeholder hubDtype outputs_shape s))

/-- `Predictor._build(self, optimizer, loss, metric, metric_is_like_loss,
metric_name, **kwargs)`: after the master's forward build (external, its
outcome is `pre`) it asserts the output is activated, plugs the `targets`
placeholder shaped like the output, applies the named loss function to the
target and the selected output tensor — `self.logits_tensor` when
`loss == 'cross_entropy'` (asserting it is not `None`), otherwise
`self.outputs.tensor` — adds the regularization loss when present, plugs the
loss slot, and, when a metric is requested, plugs the validation target and
the metric slot. Summary collection and the train-step definition are
external side effects that touch no slot. -/
def Predictor._build (pre : BuildPre) (loss : String) (metric : Option String)
    (metric_is_like_loss : Bool) (metric_name : String)
    (val_targets : Option String) : Except String BuiltModel :=
  match pre.outputs_tensor with
  | none => Except.error "AssertionError: assert self.outputs.activated"
  | some outputs =>
    let target_tensor := Tensor.placeholder hubDtype pre.outputs_shape "targets"
    let targets := TensorSlot.plug ⟨"targets", none⟩ target_tensor
    let output_sel : Except String Tensor :=
      if loss = "cross_entropy" then
        match pre.logits_tensor with
        | none => Except.error "AssertionError: assert output_tensor is not None"
        | some t => Except.ok t
      else Except.ok outputs
    match output_sel with
    | Except.error e => Except.error e
    | Except.ok output_tensor =>
      let loss_tensor := Tensor.lossApp loss target_tensor output_tensor
      let loss_tensor :=
        match pre.reg_loss with
        | some r => Tensor.add loss_tensor r
        | none => loss_tensor
      let lossSlot := TensorSlot.plug ⟨"loss", none⟩ loss_tensor
      match metric with
      | none =>
          Except.ok { targets := targets, val_targets := .unset,
                      loss := lossSlot, metric := none }
      | some m =>
          let vt := Predictor._plug_val_target_in pre.outputs_shape val_targets
          match vt.read target_tensor with
          | none => Except.error "AssertionError: slot not activated"
          | some vt_tensor =>
              Except.ok { targets := targets, val_targets := vt,
                          loss := lossSlot,
                          metric := some ⟨Tensor.metricApp m vt_tensor outputs,
                                          metric_is_like_loss, metric_name⟩ }

/-- The output-argument the plugged loss tensor was built from: peels the
optional regularization addend and returns the second argument the loss
function was applied to. -/
def lossOutputArg : Tensor → Option Tensor
  | .lossApp _ _ out => some out
  | .add t _ => lossOutputArg t
  | _ => none

/-- C6: the `Predictor` constructor raises an error for every `net_type`
argument that is neither the `Feedforward` nor the `Recurrent` variant, and
for those two recognized variants it succeeds and stores the given variant
as the master strategy tag. -/
theorem predictor_init_spec (mark : Option String) (nt : NetTypeArg) :
    ((nt = .feedforward ∨ nt = .recurrent) →
      ∃ p : Predictor, Predictor.init mark nt = Except.ok p ∧ p.master = nt) ∧
    (nt ≠ .feedforward → nt ≠ .recurrent →
      Predictor.init mark nt = Except.error "TypeError: !! Unknown net type") := by
  constructor
  · rintro (rfl | rfl)
    · refine ⟨⟨.feedforward, mark, ⟨"targets", none⟩, ⟨"val_targets", none⟩⟩, ?_, rfl⟩
      simp [Predictor.init]
    · refine ⟨⟨.recurrent, mark, ⟨"targets", none⟩, ⟨"val_targets", none⟩⟩, ?_, rfl⟩
      simp [Predictor.init]
  · intro h1 h2
    have hno : ¬ (nt = .feedforward ∨ nt = .recurrent) := by
      rintro (rfl | rfl) <;> simp_all
    simp [Predictor.init, hno]

/-- Witness for C6 at `net_type = Recurrent` and at an unrecognized value. -/
theorem predictor_init_spec_witness :
    (∃ p : Predictor, Predictor.init none .recurrent = Except.ok p
        ∧ p.master = .recurrent) ∧
    Predictor.init none (.other "int") = Except.error "TypeError: !! Unknown net type" :=
  ⟨(predictor_init_spec none .recurrent).1 (Or.inr rfl),
   (predictor_init_spec none (.other "int")).2 (by simp) (by simp)⟩

/-- C1: when `_build` succeeds, the loss function was applied to the
pre-activation `logits_tensor` exactly when the loss identifier is
`"cross_entropy"`, and to the activated `outputs.tensor` for every other
loss identifier. -/
theorem build_cross_entropy_uses_logits (pre : BuildPre) (loss : String)
    (metric : Option String) (mil : Bool) (mname : String)
    (vts : Option String) (bm : BuiltModel)
    (h : Predictor._build pre loss metric mil mname vts = Except.ok bm) :
    ∃ lt : Tensor, bm.loss.tensor = some lt ∧
      (loss = "cross_entropy" → lossOutputArg lt = pre.logits_tensor) ∧
      (loss ≠ "cross_entropy" → lossOutputArg lt = pre.outputs_tensor) := by
  simp only [Predictor._build] at h
  repeat' split at h
  all_goals first
    | exact Except.noConfusion h
    | (injection h with h2; subst h2;
       refine ⟨_, rfl, fun hce => ?_, fun hnce => ?_⟩ <;>
         cases hl : pre.logits_tensor <;>
           simp_all [lossOutputArg, TensorSlot.plug])

/-- A concrete `_build` input for the C1 witness: activated output, logits
present, no regularization loss. -/
def ceBuildPre : BuildPre :=
  { outputs_tensor := some (Tensor.ext "act_out"),
    outputs_shape := [none, some 3],
    logits_tensor := some (Tensor.ext "logits"),
    reg_loss := none }

/-- The model `_build ceBuildPre "cross_entropy" none true "Metric" none`
produces. -/
def ceBuiltModel : BuiltModel :=
  { targets := TensorSlot.plug ⟨"targets", none⟩
      (Tensor.placeholder hubDtype [none, some 3] "targets"),
    val_targets := .unset,
    loss := TensorSlot.plug ⟨"loss", none⟩
      (Tensor.lossApp "cross_entropy"
        (Tensor.placeholder hubDtype [none, some 3] "targets")
        (Tensor.ext "logits")),
    metric := none }

/-- Witness for C1 at `loss = "cross_entropy"` on `ceBuildPre`. -/
theorem build_cross_entropy_uses_logits_witness :
    ∃ lt : Tensor, ceBuiltModel.loss.tensor = some lt ∧
      ("cross_entropy" = "cross_entropy" → lossOutputArg lt = ceBuildPre.logits_tensor) ∧
      (("cross_entropy" : String) ≠ "cross_entropy" →
        lossOutputArg lt = ceBuildPre.outputs_tensor) :=
  build_cross_entropy_uses_logits ceBuildPre "cross_entropy" none true "Metric"
    none ceBuiltModel rfl

/-- C8: when `_build` is called with a metric and no explicit alternate
validation-target name, the validation-target slot becomes the training
target slot itself (its read yields the training target's placeholder);
with an explicit alternate name, a fresh placeholder with the output's shape
and that name is plugged into a separate validation-target slot. -/
theorem build_val_target_spec (pre : BuildPre) (loss : String) (m : String)
    (mil : Bool) (mname : String) (vts : Option String) (bm : BuiltModel)
    (h : Predictor._build pre loss (some m) mil mname vts = Except.ok bm) :
    (vts = none →
      bm.val_targets = ValTargetsRef.aliasTargets ∧
      bm.val_targets.read (Tensor.placeholder hubDtype pre.outputs_shape "targets")
        = bm.targets.tensor) ∧
    (∀ s : String, vts = some s →
      ∃ slot : TensorSlot, bm.val_targets = ValTargetsRef.own slot ∧
        slot.tensor = some (Tensor.placeholder hubDtype pre.outputs_shape s)) := by
  simp only [Predictor._build] at h
  repeat' split at h
  all_goals first
    | exact Except.noConfusion h
    | (injection h with h2; subst h2;
       constructor
       · rintro rfl
         simp_all [Predictor._plug_val_target_in, ValTargetsRef.read,
           TensorSlot.plug]
       · rintro s rfl
         simp_all [Predictor._plug_val_target_in, ValTargetsRef.read,
           TensorSlot.plug])

/-- A concrete `_build` input for the C8 witness. -/
def c8BuildPre : BuildPre :=
  { outputs_tensor := some (Tensor.ext "act_out"),
    outputs_shape := [none, some 4],
    logits_tensor := none,
    reg_loss := none }

/-- The model `_build c8BuildPre "euclid" (some "accuracy") true "Metric"
(some "vx")` produces. -/
def c8BuiltModel : BuiltModel :=
  { targets := TensorSlot.plug ⟨"targets", none⟩
      (Tensor.placeholder hubDtype [none, some 4] "targets"),
    val_targets := .own (TensorSlot.plug ⟨"val_targets", none⟩
      (Tensor.placeholder hubDtype [none, some 4] "vx")),
    loss := TensorSlot.plug ⟨"loss", none⟩
      (Tensor.lossApp "euclid"
        (Tensor.placeholder hubDtype [none, some 4] "targets")
        (Tensor.ext "act_out")),
    metric := some ⟨Tensor.metricApp "accuracy"
      (Tensor.placeholder hubDtype [none, some 4] "vx")
      (Tensor.ext "act_out"), true, "Metric"⟩ }

/-- Witness for C8 with the explicit alternate name "vx". -/
theorem build_val_target_spec_witness :
    ((some "vx" : Option String) = none →
      c8BuiltModel.val_targets = ValTargetsRef.aliasTargets ∧
      c8BuiltModel.val_targets.read
          (Tensor.placeholder hubDtype [none, some 4] "targets")
        = c8BuiltModel.targets.tensor) ∧
    (∀ s : String, (some "vx" : Option String) = some s →
      ∃ slot : TensorSlot, c8BuiltModel.val_targets = ValTargetsRef.own slot ∧
        slot.tensor = some (Tensor.placeholder hubDtype [none, some 4] s)) :=
  build_val_target_spec c8BuildPre "euclid" "accuracy" true "Metric"
    (some "vx") c8BuiltModel rfl

/-- `Predictor.evaluate_model(self, data, batch_size, **kwargs)`: raises
`AssertionError('!! Metric not defined')` when the metric slot is not
activated; otherwise shows the status line, runs `validate_model` (external;
its scalar result for the metric is `val_result`) and reports
`'{:} = {:.3f}'`-style output (float formatting abstracted as `toString`).
The Python function returns `None`; the value here is the console lines. -/
def Predictor.evaluate_model (metric : Option MetricSlotVal)
    (data_name : String) (val_result : Int) : Except String (List String) :=
  match metric with
  | none => Except.error "AssertionError: !! Metric not defined"
  | some ms =>
      Except.ok ["Evaluating " ++ data_name ++ " ...",
                 ms.symbol ++ " = " ++ toString val_result]

/-- C5: `evaluate_model` raises (returns no value) whenever the metric slot
is not activated, and when it is activated it proceeds to validation and
reports the scalar metric value. -/
theorem evaluate_model_spec (metric : Option MetricSlotVal) (dn : String)
    (vr : Int) :
    (metric.isSome = false →
      Predictor.evaluate_model metric dn vr
        = Except.error "AssertionError: !! Metric not defined") ∧
    (∀ ms : MetricSlotVal, metric = some ms →
      Predictor.evaluate_model metric dn vr
        = Except.ok ["Evaluating " ++ dn ++ " ...",
                     ms.symbol ++ " = " ++ toString vr]) := by
  constructor
  · intro h
    cases metric with
    | none => rfl
    | some ms => simp at h
  · rintro ms rfl
    rfl

/-- Witness for C5: no metric defined fails; a defined metric reports. -/
theorem evaluate_model_spec_witness :
    Predictor.evaluate_model none "test-set" 7
        = Except.error "AssertionError: !! Metric not defined" ∧
    Predictor.evaluate_model (some ⟨Tensor.ext "metric", true, "Err"⟩)
        "test-set" 7
      = Except.ok ["Evaluating test-set ...", "Err = 7"] :=
  ⟨(evaluate_model_spec none "test-set" 7).1 rfl,
   (evaluate_model_spec (some ⟨Tensor.ext "metric", true, "Err"⟩)
      "test-set" 7).2 ⟨Tensor.ext "metric", true, "Err"⟩ rfl⟩

/-! ## src/models/sl/predictor.py — training-time resets and feed dicts -/

/-- The flags the training path reads from the global configuration hub. -/
structure Hub where
  notify_when_reset : Bool := false
  use_rtrl : Bool := false
  test_grad : Bool := false
deriving Repr, DecidableEq

/-- The fields of a `DataSet` batch that the recurrent training path reads.
A row of the recurrent state buffer is abstracted as an `Int`. -/
structure DataSet where
  size : Nat
  should_reset_state : Bool
  should_partially_reset_state : Bool
  reset_batch_indices : List Nat
  reset_values : Option (List Int)
deriving Repr, DecidableEq

/-- Observable actions of the update path, in program order. -/
inductive Event where
  | consoleLine (s : String)
  | resetBuffers (size : Nat)
  | resetPartBuffer (indices : List Nat) (values : Option (List Int))
  | feedforwardUpdate
  | runUpdateGroup
  | popGradBuffer
  | popGradDelta
deriving Repr, DecidableEq

/-- The actions that touch the state buffer. -/
def Event.isReset : Event → Bool
  | .resetBuffers _ => true
  | .resetPartBuffer _ _ => true
  | _ => false

/-- The console rule `'- ' * 40` written when a full reset is notified. -/
def resetRule : String := String.join (List.replicate 40 "- ")

/-- Modelled from the spec: `reset_buffers` is defined in the recurrent base
class (`tframe.models.recurrent`), which is not among the provided source
files. The spec describes the full reset as replacing the state buffer with
the zero/default state sized to the batch. -/
def reset_buffers (size : Nat) : List Int := List.replicate size 0

/-- Modelled from the spec: `reset_part_buffer` is defined in the recurrent
base class, which is not among the provided source files. The spec says the
partial reset "must alter only the specified rows of the state buffer,
leaving other rows unchanged": each row whose index is listed receives the
matching supplied reset value, or the zero/default value when no values are
given; every other row keeps its value. -/
def reset_part_buffer (buffer : List Int) (indices : List Nat)
    (values : Option (List Int)) : List Int :=
  buffer.enum.map fun p =>
    if p.1 ∈ indices then
      match values with
      | some vs => vs.getD (indices.indexOf p.1) 0
      | none => 0
    else p.2

/-- One entry group of the feed dictionary: the values supplied by
`Feedforward._get_default_feed_dict` (external), or the recurrent-state
entries `self._get_rnn_dict(batch_size=batch_size)` adds, keyed by the
batch-size argument they were built with (`none` is Python's `None`). -/
inductive FeedEntry where
  | base
  | rnnState (batch_size : Option Nat)
deriving Repr, DecidableEq

/-- `Predictor._get_default_feed_dict(self, batch, is_training)`: the base
feed values come from `Feedforward._get_default_feed_dict` (external). For
the recurrent master only (`assert isinstance(batch, DataSet)` holds by
typing), during training a batch with `should_reset_state` true resets the
whole state buffer (writing the console rule when `hub.notify_when_reset`),
and a batch with `should_partially_reset_state` true partially resets it
(that branch's console block sits behind `hub.notify_when_reset and False`,
statically dead, so it is not modelled); then the recurrent-state entries
are added with `batch_size = None if is_training else batch.size`. Returns
the feed entries, the state buffer as the resets leave it, and the trace of
actions. -/
def Predictor._get_default_feed_dict (hub : Hub) (master : NetTypeArg)
    (buffer : List Int) (batch : DataSet) (is_training : Bool) :
    List FeedEntry × List Int × List Event :=
  let feed : List FeedEntry := [.base]
  if master = .recurrent then
    let st :=
      if is_training then
        let st :=
          if batch.should_reset_state then
            (reset_buffers batch.size,
             (if hub.notify_when_reset then [Event.consoleLine resetRule]
              else []) ++ [Event.resetBuffers batch.size])
          else (buffer, ([] : List Event))
        if batch.should_partially_reset_state then
          (reset_part_buffer st.1 batch.reset_batch_indices batch.reset_values,
           st.2 ++ [Event.resetPartBuffer batch.reset_batch_indices
                      batch.reset_values])
        else st
      else (buffer, ([] : List Event))
    let batch_size := if is_training then none else some batch.size
    (feed ++ [.rnnState batch_size], st.1, st.2)
  else (feed, buffer, [])

/-- `Predictor.update_model(self, data_batch, **kwargs)` as the trace of its
actions, paired with the state buffer as it stands when the update group
runs. For the feedforward master it delegates to `Feedforward.update_model`
(external). For the recurrent master it builds the feed dictionary
(performing any resets), runs the update group over it, pops the new state
array from the results (an external value that then overwrites the buffer),
and also pops the gradient buffer under `hub.use_rtrl` and the gradient
delta under `hub.test_grad`. -/
def Predictor.update_model (hub : Hub) (master : NetTypeArg)
    (buffer : List Int) (batch : DataSet) : List Event × List Int :=
  if master = .feedforward then ([Event.feedforwardUpdate], buffer)
  else
    let fd := Predictor._get_default_feed_dict hub master buffer batch true
    (fd.2.2 ++ [Event.runUpdateGroup]
      ++ (if hub.use_rtrl then [Event.popGradBuffer] else [])
      ++ (if hub.test_grad then [Event.popGradDelta] else []),
     fd.2.1)

theorem feed_dict_state_events (hub : Hub) (buffer : List Int)
    (batch : DataSet) :
    (Predictor._get_default_feed_dict hub .recurrent buffer batch true).2.2
      = (if batch.should_reset_state then
           (if hub.notify_when_reset then [Event.consoleLine resetRule]
            else []) ++ [Event.resetBuffers batch.size]
         else [])
        ++ (if batch.should_partially_reset_state then
              [Event.resetPartBuffer batch.reset_batch_indices
                 batch.reset_values]
            else []) ∧
    (Predictor._get_default_feed_dict hub .recurrent buffer batch true).2.1
      = (if batch.should_partially_reset_state then
           reset_part_buffer
             (if batch.should_reset_state then reset_buffers batch.size
              else buffer)
             batch.reset_batch_indices batch.reset_values
         else if batch.should_reset_state then reset_buffers batch.size
           else buffer) := by
  cases hrs : batch.should_reset_state <;>
    cases hprs : batch.should_partially_reset_state <;>
      simp [Predictor._get_default_feed_dict, hrs, hprs]

/-- C7: in `_get_default_feed_dict` the recurrent-state entries are added
with batch size `None` ("unspecified", deferring to the live state buffer)
exactly when `is_training` is true and with the batch's own size exactly
when it is false; for the feedforward master no recurrent-state entries are
added. -/
theorem feed_dict_rnn_entries (hub : Hub) (buffer : List Int) (batch : DataSet)
    (is_training : Bool) :
    (∀ bs : Option Nat,
      FeedEntry.rnnState bs
          ∈ (Predictor._get_default_feed_dict hub .recurrent buffer batch
              is_training).1
        ↔ bs = (if is_training then none else some batch.size)) ∧
    (∀ bs : Option Nat,
      FeedEntry.rnnState bs
          ∉ (Predictor._get_default_feed_dict hub .feedforward buffer batch
              is_training).1) := by
  constructor
  · intro bs
    cases is_training <;> simp [Predictor._get_default_feed_dict]
  · intro bs
    simp [Predictor._get_default_feed_dict]

/-- C3: for the recurrent variant, `update_model` evaluates the batch's
reset flags and performs any full or partial state-buffer reset strictly
before it runs the update group: the trace is the feed-dictionary actions —
console rules and resets only, holding the full reset whenever
`should_reset_state` is set and the partial reset whenever
`should_partially_reset_state` is set — followed by the update-group run and
the post-run pops, none of which resets; and with `should_reset_state` true
(and no partial reset) the buffer the run consumes is the fresh zero state. -/
theorem update_model_resets_before_run (hub : Hub) (buffer : List Int)
    (batch : DataSet) :
    ∃ pre post : List Event,
      (Predictor.update_model hub .recurrent buffer batch).1
          = pre ++ Event.runUpdateGroup :: post ∧
      (∀ e ∈ pre, e.isReset = true ∨ e = Event.consoleLine resetRule) ∧
      (∀ e ∈ post, e.isReset = false) ∧
      (batch.should_reset_state = true →
        Event.resetBuffers batch.size ∈ pre) ∧
      (batch.should_partially_reset_state = true →
        Event.resetPartBuffer batch.reset_batch_indices batch.reset_values
          ∈ pre) ∧
      (batch.should_reset_state = true →
        batch.should_partially_reset_state = false →
        (Predictor.update_model hub .recurrent buffer batch).2
          = reset_buffers batch.size) := by
  obtain ⟨hev, hst⟩ := feed_dict_state_events hub buffer batch
  refine ⟨(Predictor._get_default_feed_dict hub .recurrent buffer batch
      true).2.2,
    (if hub.use_rtrl then [Event.popGradBuffer] else [])
      ++ (if hub.test_grad then [Event.popGradDelta] else []),
    ?_, ?_, ?_, ?_, ?_, ?_⟩
  · simp [Predictor.update_model]
  · rw [hev]
    cases hrs : batch.should_reset_state <;>
      cases hprs : batch.should_partially_reset_state <;>
        cases hnw : hub.notify_when_reset <;>
          simp [Event.isReset]
  · cases hrtrl : hub.use_rtrl <;> cases htg : hub.test_grad <;>
      simp [Event.isReset]
  · intro h
    rw [hev, h]
    cases hprs : batch.should_partially_reset_state <;>
      cases hnw : hub.notify_when_reset <;> simp
  · intro h
    rw [hev, h]
    cases hrs : batch.should_reset_state <;>
      cases hnw : hub.notify_when_reset <;> simp
  · intro h1 h2
    have hsnd : (Predictor.update_model hub .recurrent buffer batch).2
        = (Predictor._get_default_feed_dict hub .recurrent buffer batch
            true).2.1 := by
      simp [Predictor.update_model]
    rw [hsnd, hst, h1, h2]
    simp

/-- C2 counterexample: on a batch with both `should_reset_state` and
`should_partially_reset_state` true, the recurrent update path does invoke
`reset_part_buffer` — the partial-reset logic is not skipped (the two checks
are independent `if` statements, with no early return between them). -/
theorem both_flags_partial_not_skipped_cex :
    Event.resetPartBuffer [0] (some [5])
      ∈ (Predictor.update_model ⟨false, false, false⟩ .recurrent [1, 2]
          ⟨2, true, true, [0], some [5]⟩).1 := by decide

/-- C2 (amended): for the recurrent variant during training, when a batch
has both `should_reset_state` and `should_partially_reset_state` true, the
full state-buffer reset runs and the partial-reset logic is NOT skipped:
`reset_part_buffer` is invoked on the same call, right after the full reset,
on the freshly reset buffer. -/
theorem both_flags_full_then_partial (hub : Hub) (buffer : List Int)
    (batch : DataSet) (hrs : batch.should_reset_state = true)
    (hprs : batch.should_partially_reset_state = true) :
    ∃ pre : List Event,
      (Predictor._get_default_feed_dict hub .recurrent buffer batch true).2.2
        = pre ++ [Event.resetBuffers batch.size,
                  Event.resetPartBuffer batch.reset_batch_indices
                    batch.reset_values] ∧
      (Predictor._get_default_feed_dict hub .recurrent buffer batch true).2.1
        = reset_part_buffer (reset_buffers batch.size)
            batch.reset_batch_indices batch.reset_values := by
  obtain ⟨hev, hst⟩ := feed_dict_state_events hub buffer batch
  refine ⟨if hub.notify_when_reset then [Event.consoleLine resetRule]
    else [], ?_, ?_⟩
  · rw [hev, hrs, hprs]
    cases hnw : hub.notify_when_reset <;> simp
  · rw [hst, hrs, hprs]
    simp

/-- Witness for the amended C2 at a concrete batch with both flags set. -/
theorem both_flags_full_then_partial_witness :
    ∃ pre : List Event,
      (Predictor._get_default_feed_dict ⟨false, false, false⟩ .recurrent
          [1, 2] ⟨2, true, true, [0], some [5]⟩ true).2.2
        = pre ++ [Event.resetBuffers 2,
                  Event.resetPartBuffer [0] (some [5])] ∧
      (Predictor._get_default_feed_dict ⟨false, false, false⟩ .recurrent
          [1, 2] ⟨2, true, true, [0], some [5]⟩ true).2.1
        = reset_part_buffer (reset_buffers 2) [0] (some [5]) :=
  both_flags_full_then_partial ⟨false, false, false⟩ [1, 2]
    ⟨2, true, true, [0], some [5]⟩ rfl rfl

theorem reset_part_buffer_length (buffer : List Int) (indices : List Nat)
    (values : Option (List Int)) :
    (reset_part_buffer buffer indices values).length = buffer.length := by
  simp [reset_part_buffer]

theorem reset_part_buffer_frame (buffer : List Int) (indices : List Nat)
    (values : Option (List Int)) (j : Nat) (hj : j < buffer.length)
    (hnot : j ∉ indices) :
    (reset_part_buffer buffer indices values)[j]? = buffer[j]? := by
  have henum : (buffer.enum)[j]? = some (j, buffer.get ⟨j, hj⟩) := by
    rw [List.getElem?_enum, List.getElem?_eq_getElem hj]
    rfl
  rw [reset_part_buffer, List.getElem?_map, henum, List.getElem?_eq_getElem hj]
  simp [hnot]

/-- C4: for the recurrent variant during training, a batch with
`should_partially_reset_state` true (and `should_reset_state` false) and
explicit reset indices and values makes `update_model` run the update group
on a state buffer that can differ from the incoming one only at the rows
named in `reset_batch_indices`: the buffer keeps its length, and every row
not named keeps its value. -/
theorem partial_reset_frames_other_rows (hub : Hub) (buffer : List Int)
    (batch : DataSet) (hprs : batch.should_partially_reset_state = true)
    (hrs : batch.should_reset_state = false) :
    (Predictor.update_model hub .recurrent buffer batch).2.length
        = buffer.length ∧
    ∀ j : Nat, j < buffer.length → j ∉ batch.reset_batch_indices →
      (Predictor.update_model hub .recurrent buffer batch).2[j]?
        = buffer[j]? := by
  obtain ⟨hev, hst⟩ := feed_dict_state_events hub buffer batch
  have hupd : (Predictor.update_model hub .recurrent buffer batch).2
      = reset_part_buffer buffer batch.reset_batch_indices
          batch.reset_values := by
    have hsnd : (Predictor.update_model hub .recurrent buffer batch).2
        = (Predictor._get_default_feed_dict hub .recurrent buffer batch
            true).2.1 := by
      simp [Predictor.update_model]
    rw [hsnd, hst, hprs, hrs]
    simp
  rw [hupd]
  exact ⟨reset_part_buffer_length _ _ _,
    fun j hj hnot => reset_part_buffer_frame _ _ _ j hj hnot⟩

/-- Witness for C4: buffer `[10, 20, 30]`, partial reset of row 1 only; row
2 keeps its value. -/
theorem partial_reset_frames_other_rows_witness :
    (Predictor.update_model ⟨false, false, false⟩ .recurrent [10, 20, 30]
        ⟨2, false, true, [1], some [7]⟩).2.length = 3 ∧
    (Predictor.update_model ⟨false, false, false⟩ .recurrent [10, 20, 30]
        ⟨2, false, true, [1], some [7]⟩).2[2]?
      = ([10, 20, 30] : List Int)[2]? :=
  ⟨(partial_reset_frames_other_rows ⟨false, false, false⟩ [10, 20, 30]
      ⟨2, false, true, [1], some [7]⟩ rfl rfl).1,
   (partial_reset_frames_other_rows ⟨false, false, false⟩ [10, 20, 30]
      ⟨2, false, true, [1], some [7]⟩ rfl rfl).2 2 (by decide) (by decide)⟩

/-- Witness for C3 at a concrete recurrent update with a full reset. -/
theorem update_model_resets_before_run_witness :
    ∃ pre post : List Event,
      (Predictor.update_model ⟨false, false, false⟩ .recurrent [1, 2]
          ⟨2, true, false, [], none⟩).1
          = pre ++ Event.runUpdateGroup :: post ∧
      (∀ e ∈ pre, e.isReset = true ∨ e = Event.consoleLine resetRule) ∧
      (∀ e ∈ post, e.isReset = false) ∧
      (true = true → Event.resetBuffers 2 ∈ pre) ∧
      (false = true → Event.resetPartBuffer [] none ∈ pre) ∧
      (true = true → false = false →
        (Predictor.update_model ⟨false, false, false⟩ .recurrent [1, 2]
            ⟨2, true, false, [], none⟩).2
          = reset_buffers 2) :=
  update_model_resets_before_run ⟨false, false, false⟩ [1, 2]
    ⟨2, true, false, [], none⟩

/-- Witness for C7 at a concrete batch, probing the `None`-sized entry. -/
theorem feed_dict_rnn_entries_witness :
    (FeedEntry.rnnState none
        ∈ (Predictor._get_default_feed_dict ⟨false, false, false⟩ .recurrent
            [0] ⟨4, false, false, [], none⟩ true).1
      ↔ (none : Option Nat) = (if true then none else some 4)) ∧
    FeedEntry.rnnState none
        ∉ (Predictor._get_default_feed_dict ⟨false, false, false⟩ .feedforward
            [0] ⟨4, false, false, [], none⟩ true).1 :=
  ⟨(feed_dict_rnn_entries ⟨false, false, false⟩ [0]
      ⟨4, false, false, [], none⟩ true).1 none,
   (feed_dict_rnn_entries ⟨false, false, false⟩ [0]
      ⟨4, false, false, [], none⟩ true).2 none⟩
